import Mathlib

/-!
# Verification of the UFO-R11 SmartIR integration (shallow embedding)

This file embeds the data model and the operations of the
`custom_components/ufo_r11_smartir` Python package in Lean 4 and proves
properties of them.  The embedding follows the source files
`ir_codes.py`, `parser.py`, `smartir_generator.py` and
`device_manager.py`:

* Python dicts (insertion ordered, overwrite keeps the original slot)
  become association lists `List (String × α)` together with `dictInsert`,
  `dictGet`, `dictLen`;
* `base64.b64decode(code, validate=True)` becomes `b64decodeValidate`,
  modelling `binascii.a2b_base64(s, strict_mode=True)` as the CPython
  versions Home Assistant runs on (3.11+) implement it;
* timestamps (`dt_util.utcnow()`) are threaded through as an explicit
  `now : String` argument;
* fallible code returns `Option` and stateful code passes state
  explicitly.
-/

set_option autoImplicit false

namespace UfoR11

/-! ## Python dict model (insertion-ordered association lists) -/

/-- `d[k] = v` on a Python dict: overwrite in place, or append at the end. -/
def dictInsert {α : Type} (k : String) (v : α) : List (String × α) → List (String × α)
  | [] => [(k, v)]
  | (k', v') :: rest =>
    if k' = k then (k', v) :: rest else (k', v') :: dictInsert k v rest

/-- `d.get(k)` on a Python dict. -/
def dictGet {α : Type} (k : String) (d : List (String × α)) : Option α :=
  (d.find? (fun p => p.1 = k)).map (fun p => p.2)

/-- `del d[k]` on a Python dict (here: remove every binding of `k`). -/
def dictRemove {α : Type} (k : String) (d : List (String × α)) : List (String × α) :=
  d.filter (fun p => ¬ p.1 = k)

/-- `len(d)` on a Python dict. -/
def dictLen {α : Type} (d : List (String × α)) : Nat := d.length

/-! ## Base64 (CPython `base64.b64decode(code, validate=True)`)

On the CPython versions Home Assistant runs on (3.11+),
`b64decode(s, validate=True)` ASCII-encodes the string (non-ASCII raises
`ValueError`) and calls `binascii.a2b_base64(s, strict_mode=True)`.  The
strict decoder accepts exactly the strings of `n` alphabet characters
followed by `p` padding characters `=` (a non-alphabet character raises
"Only base64 data is allowed", a data character after padding raises
"Discontinuous padding"/"Excess data after padding", pads-only input
raises "Leading padding is not allowed") with: `n % 4 = 0` and any
`p ≥ 0` when `n > 0` — excess padding after complete quads is ignored,
e.g. `'QUJD='` and even `'QUJD==='` decode to `b'ABC'`; `n % 4 = 2` and
`p = 2` (one extra byte); `n % 4 = 3` and `p = 1` (two extra bytes);
the empty string (empty result).  `n % 4 = 1` always raises. -/

/-- Value of a base64 alphabet character, `none` outside the alphabet
(non-ASCII characters fail the `s.encode('ascii')` step and land in the
same error branch). -/
def b64val (c : Char) : Option Nat :=
  if 'A' ≤ c ∧ c ≤ 'Z' then some (c.toNat - 65)
  else if 'a' ≤ c ∧ c ≤ 'z' then some (c.toNat - 71)
  else if '0' ≤ c ∧ c ≤ '9' then some (c.toNat - 48 + 52)
  else if c = '+' then some 62
  else if c = '/' then some 63
  else none

/-- Split the input into alphabet-character values followed by trailing
padding: `none` when a character is outside the alphabet (strict mode
rejects it) or when a data character follows padding (the
discontinuous/excess padding errors). -/
def b64scan : List Char → Option (List Nat × Nat)
  | [] => some ([], 0)
  | c :: rest =>
    match b64val c with
    | some v =>
      match b64scan rest with
      | some (vs, p) => some (v :: vs, p)
      | none => none
    | none =>
      if c = '=' then
        if rest.all (fun c' => c' = '=') then some ([], rest.length + 1)
        else none
      else none

/-- The quad/padding arithmetic of strict `a2b_base64`, given the
alphabet character values and the padding count: three bytes per
complete quad, with excess pads after complete quads ignored; a
two-character remainder needs exactly two pads, a three-character
remainder exactly one, a one-character remainder always raises. -/
def b64decodeData : List Nat → Nat → Option (List Nat)
  | a :: b :: c :: d :: rest, p =>
    match b64decodeData rest p with
    | some bytes =>
      some ((a * 4 + b / 16) :: ((b % 16) * 16 + c / 4) ::
            ((c % 4) * 64 + d) :: bytes)
    | none => none
  | [], _ => some []
  | [_], _ => none
  | [a, b], p => if p = 2 then some [a * 4 + b / 16] else none
  | [a, b, c], p =>
    if p = 1 then some [a * 4 + b / 16, (b % 16) * 16 + c / 4] else none

/-- `base64.b64decode(s, validate=True)`: strict-mode decoding; `none`
models the raised `binascii.Error`/`ValueError`.  A pads-only non-empty
input is the "Leading padding is not allowed" error. -/
def b64decodeValidate (s : List Char) : Option (List Nat) :=
  match b64scan s with
  | some (vs, p) =>
    if vs = [] ∧ p ≠ 0 then none
    else b64decodeData vs p
  | none => none

/-! ## `ir_codes.py`: `IRCommand` -/

/-- `ir_codes.IRCommand`: a dataclass with fields
`name, code, raw_data, timestamp, validated`. -/
structure IRCommand where
  name : String
  code : String
  raw_data : Option String
  timestamp : Option String
  validated : Bool
  deriving DecidableEq, Repr

/-- `IRCommand._validate_base64`: `len(base64.b64decode(code, validate=True)) > 0`,
`False` when decoding raises. -/
def validate_base64 (code : String) : Bool :=
  match b64decodeValidate code.data with
  | some bytes => decide (0 < bytes.length)
  | none => false

/-- The `IRCommand` constructor followed by `__post_init__`: a missing
timestamp is replaced by `now` (`dt_util.utcnow().isoformat()`), and
`validated` is unconditionally overwritten with `_validate_base64()`,
whatever value the caller passed for it. -/
def mkIRCommand (now : String) (name code : String) (raw_data : Option String)
    (timestamp : Option String) (validated : Bool) : IRCommand :=
  { name := name
    code := code
    raw_data := raw_data
    timestamp := some (timestamp.getD now)
    validated :=
      -- self.validated = self._validate_base64(): the `validated` argument
      -- stored by the generated __init__ is discarded here.
      (fun (_ : Bool) => validate_base64 code) validated }

/-- The dictionary written by `IRCommand.to_dict` / read by
`IRCommand.from_dict`: a JSON object with exactly these keys. -/
structure IRCommandDict where
  name : String
  code : String
  raw_data : Option String
  timestamp : Option String
  validated : Bool
  deriving DecidableEq, Repr

/-- `IRCommand.to_dict`. -/
def IRCommand.to_dict (cmd : IRCommand) : IRCommandDict :=
  { name := cmd.name
    code := cmd.code
    raw_data := cmd.raw_data
    timestamp := cmd.timestamp
    validated := cmd.validated }

/-- `IRCommand.from_dict`: calls the constructor (hence `__post_init__`)
with the values stored in the dictionary. -/
def IRCommand.from_dict (now : String) (data : IRCommandDict) : IRCommand :=
  mkIRCommand now data.name data.code data.raw_data data.timestamp data.validated

/-! ## `ir_codes.py`: `IRCodeSet` -/

/-- `ir_codes.IRCodeSet`: identity fields, the six command dicts, the two
metadata timestamps — and `py_reflective_writes`, a journal of the item
assignments `add_command` performs when `getattr` resolves the category
to one of the object's reflective dict-valued attributes (`__dict__`,
`__annotations__`, `__dataclass_fields__`): those assignments succeed in
the source and mutate the instance/class attribute tables.  The journal
records each such write `(attribute, key, command)`; the aliasing a
`__dict__` write causes when its key collides with a declared field name
is outside this embedding. -/
structure IRCodeSet where
  device_id : String
  device_name : String
  device_type : String := "air_conditioner"
  manufacturer : String := "MOES"
  model : String := "UFO-R11"
  power : List (String × IRCommand) := []
  temperature : List (String × IRCommand) := []
  mode : List (String × IRCommand) := []
  fan_speed : List (String × IRCommand) := []
  swing : List (String × IRCommand) := []
  custom : List (String × IRCommand) := []
  created_at : Option String := none
  updated_at : Option String := none
  py_reflective_writes : List (String × String × IRCommand) := []
  deriving DecidableEq, Repr

/-- The six category names that name a command dict on `IRCodeSet`. -/
def categoryNames : List String :=
  ["power", "temperature", "mode", "fan_speed", "swing", "custom"]

/-- Scalar (non-dict) dataclass fields of `IRCodeSet`.  For these,
`getattr(self, category, None)` returns a string or `None`, item
assignment on it raises, and `add_command` / `get_command` fall into
their failure branch. -/
def scalarFieldNames : List String :=
  ["device_id", "device_name", "device_type", "manufacturer", "model",
   "created_at", "updated_at"]

/-- The dict-valued reflective attributes `getattr` can resolve on an
`IRCodeSet` instance besides the six command dicts: the instance
attribute table `__dict__` and the class dicts `__annotations__` and
`__dataclass_fields__`.  Item assignment on these succeeds, so
`add_command` with one of these names mutates state and returns `True`. -/
def dunderDictAttrs : List String :=
  ["__dict__", "__annotations__", "__dataclass_fields__"]

/-- `IRCodeSet.__post_init__`: fill `created_at` if absent and refresh
`updated_at`. -/
def IRCodeSet.post_init (now : String) (cs : IRCodeSet) : IRCodeSet :=
  { cs with created_at := some (cs.created_at.getD now), updated_at := some now }

/-- A fresh `IRCodeSet(device_id=…, device_name=…)` as built by the parser
and the device manager. -/
def mkIRCodeSet (now device_id device_name : String) : IRCodeSet :=
  IRCodeSet.post_init now { device_id := device_id, device_name := device_name }

/-- `IRCodeSet.add_command`: resolve the category dict via
`getattr(self, category, None)`; an unknown category (attribute absent,
hence `None`) and a scalar attribute (item assignment raises, the
`except` swallows it) both return `False` and change nothing; a dict
category stores the command under `key` and bumps `updated_at`. -/
def IRCodeSet.add_command (cs : IRCodeSet) (now : String) (category key : String)
    (cmd : IRCommand) : IRCodeSet × Bool :=
  if category = "power" then
    ({ cs with power := dictInsert key cmd cs.power, updated_at := some now }, true)
  else if category = "temperature" then
    ({ cs with temperature := dictInsert key cmd cs.temperature, updated_at := some now }, true)
  else if category = "mode" then
    ({ cs with mode := dictInsert key cmd cs.mode, updated_at := some now }, true)
  else if category = "fan_speed" then
    ({ cs with fan_speed := dictInsert key cmd cs.fan_speed, updated_at := some now }, true)
  else if category = "swing" then
    ({ cs with swing := dictInsert key cmd cs.swing, updated_at := some now }, true)
  else if category = "custom" then
    ({ cs with custom := dictInsert key cmd cs.custom, updated_at := some now }, true)
  else if category ∈ dunderDictAttrs then
    -- `getattr` resolved a reflective dict-valued attribute: the item
    -- assignment succeeds, `updated_at` is bumped and the method returns
    -- True; the write is journalled on `py_reflective_writes`.
    ({ cs with py_reflective_writes := cs.py_reflective_writes ++ [(category, key, cmd)],
               updated_at := some now }, true)
  else
    -- `getattr` gave `None` (unknown attribute), a scalar attribute or a
    -- method, on which `category_dict[key] = command` raises before any
    -- mutation; in every such case the method logs and returns False.
    (cs, false)

/-- `IRCodeSet.get_command`: `category_dict.get(key)` for the six command
dicts, `None` when `getattr` finds nothing or `.get` raises.  (Through
the reflective attribute names the source would return whatever object
sits in those tables — not an `IRCommand`; no reader in the package uses
them, and the embedding covers the six command categories.) -/
def IRCodeSet.get_command (cs : IRCodeSet) (category key : String) : Option IRCommand :=
  if category = "power" then dictGet key cs.power
  else if category = "temperature" then dictGet key cs.temperature
  else if category = "mode" then dictGet key cs.mode
  else if category = "fan_speed" then dictGet key cs.fan_speed
  else if category = "swing" then dictGet key cs.swing
  else if category = "custom" then dictGet key cs.custom
  else none

/-- `IRCodeSet.get_all_commands`: the six dicts keyed by category name. -/
def IRCodeSet.get_all_commands (cs : IRCodeSet) :
    List (String × List (String × IRCommand)) :=
  [("power", cs.power), ("temperature", cs.temperature), ("mode", cs.mode),
   ("fan_speed", cs.fan_speed), ("swing", cs.swing), ("custom", cs.custom)]

/-- `IRCodeSet.get_command_count`: sum of the six dict sizes. -/
def IRCodeSet.get_command_count (cs : IRCodeSet) : Nat :=
  (cs.get_all_commands.map (fun p => dictLen p.2)).sum

/-! ## `parser.py`: `PointCodesParser`

Strings are manipulated through their character lists.  Python's
`str.strip` becomes `listTrim`, `" - " in line` becomes a `<:+:` (infix)
test, `line.split(" - ", 1)` becomes `splitFirst`, and `re.search` of the
parser's patterns (literal words joined by `\s+`, `re.IGNORECASE`, an
irrelevant trailing `.*` on two of them) becomes `searchWords` over
lower-cased characters. -/

/-- Python `str.isspace` on the ASCII whitespace the parser can meet. -/
def pyIsSpace (c : Char) : Bool :=
  c = ' ' || c = '\t' || c = '\n' || c = '\r' || c = '\x0b' || c = '\x0c'

/-- Python `str.strip()`. -/
def listTrim (s : List Char) : List Char :=
  (s.dropWhile pyIsSpace).rdropWhile pyIsSpace

/-- Python `s.split(sep, 1)` when `sep` occurs: the part before the first
occurrence and the part after it. -/
def splitFirst (sep : List Char) : List Char → Option (List Char × List Char)
  | [] => none
  | c :: rest =>
    if sep.isPrefixOf (c :: rest) then some ([], (c :: rest).drop sep.length)
    else
      match splitFirst sep rest with
      | some (pre, post) => some (c :: pre, post)
      | none => none

/-- `\s+` after a matched word: at least one whitespace character, then
greedily all following whitespace. -/
def skipSpaces1 (s : List Char) : Option (List Char) :=
  match s with
  | [] => none
  | c :: rest => if pyIsSpace c then some (rest.dropWhile pyIsSpace) else none

/-- Match a pattern of literal words joined by `\s+` at the head of `s`. -/
def matchWords : List (List Char) → List Char → Bool
  | [], _ => true
  | [w], s => w.isPrefixOf s
  | w :: ws, s =>
    w.isPrefixOf s &&
      match skipSpaces1 (s.drop w.length) with
      | some s' => matchWords ws s'
      | none => false

/-- `re.search`: try the pattern at every start position. -/
def searchWords (ws : List (List Char)) : List Char → Bool
  | [] => matchWords ws []
  | c :: rest => matchWords ws (c :: rest) || searchWords ws rest

/-- Case-insensitive search of a word pattern inside a label
(`re.search(pattern, label, re.IGNORECASE)`). -/
def patternSearch (ws : List String) (label : String) : Bool :=
  searchWords (ws.map (fun w => w.data.map Char.toLower)) (label.data.map Char.toLower)

/-- `POINTCODES_MIN_TEMP` (`const.py`). -/
def POINTCODES_MIN_TEMP : Nat := 17

/-- `POINTCODES_MAX_TEMP` (`const.py`). -/
def POINTCODES_MAX_TEMP : Nat := 30

/-- The parser's `mode_patterns` (insertion order preserved). -/
def mode_patterns : List (List String × (String × String)) :=
  [(["Mode", "cool"], ("mode", "cool")),
   (["Mode", "dry"], ("mode", "dry")),
   (["Mode", "Heat"], ("mode", "heat")),
   (["Mode", "Fan"], ("mode", "fan_only")),
   (["Mode", "automatic"], ("mode", "auto")),
   (["Mode", "sleep"], ("mode", "sleep"))]

/-- The parser's `fan_patterns`. -/
def fan_patterns : List (List String × (String × String)) :=
  [(["Fan", "speed", "low"], ("fan_speed", "low")),
   (["Fan", "speed", "medium"], ("fan_speed", "medium")),
   (["Fan", "speed", "high"], ("fan_speed", "high")),
   (["Fan", "speed", "automatic"], ("fan_speed", "auto"))]

/-- The parser's `swing_patterns`. -/
def swing_patterns : List (List String × (String × String)) :=
  [(["Swing", "on"], ("swing", "on")),
   (["swing", "off"], ("swing", "off"))]

/-- `PointCodesParser._build_command_mappings`: the exact-match table,
`ON`/`OFF` then one label `"{T}c"` per temperature in
`range(POINTCODES_MIN_TEMP, POINTCODES_MAX_TEMP + 1)`. -/
def command_mappings : List (String × (String × String)) :=
  [("ON", ("power", "on")), ("OFF", ("power", "off"))] ++
    (List.range' POINTCODES_MIN_TEMP (POINTCODES_MAX_TEMP + 1 - POINTCODES_MIN_TEMP)).map
      (fun t => (toString t ++ "c", ("temperature", toString t)))

/-- `PointCodesParser._match_pattern_command`: mode patterns first, then
fan patterns, then swing patterns, first match wins. -/
def match_pattern_command (label : String) : Option (String × String) :=
  (mode_patterns ++ fan_patterns ++ swing_patterns).findSome?
    (fun p => if patternSearch p.1 label then some p.2 else none)

/-- `PointCodesParser._map_command`: exact-match table first, then the
regex patterns, else `None`. -/
def map_command (label : String) : Option (String × String) :=
  match dictGet label command_mappings with
  | some m => some m
  | none => match_pattern_command label

/-- `PointCodesParser._parse_line`: strip, require the `" - "` separator,
split once, strip both parts, reject empty label or code.  Returns
`(label, code, stripped line)`. -/
def parse_line (line : String) : Option (String × String × String) :=
  let t := listTrim line.data
  if t = [] then none
  else if " - ".data <:+: t then
    match splitFirst " - ".data t with
    | none => none
    | some (a, b) =>
      let label := listTrim a
      let code := listTrim b
      if label = [] ∨ code = [] then none
      else some (String.mk label, String.mk code, String.mk t)
  else none

/-- Python `str.splitlines` restricted to the `\n`, `\r\n` and `\r` line
boundaries that occur in Point-codes text. -/
def pySplitLines : List Char → List Char → List (List Char)
  | acc, [] => if acc = [] then [] else [acc.reverse]
  | acc, '\n' :: rest => acc.reverse :: pySplitLines [] rest
  | acc, '\r' :: '\n' :: rest => acc.reverse :: pySplitLines [] rest
  | acc, '\r' :: rest => acc.reverse :: pySplitLines [] rest
  | acc, c :: rest => pySplitLines (c :: acc) rest

/-- One iteration of the parsing loop in `PointCodesParser.parse_content`:
skip unparsable lines, count unmapped labels as skipped, otherwise build
the `IRCommand` (name = label, raw_data = stripped line) and
`add_command` it, counting parsed/skipped by the returned flag.
The state is `(code_set, parsed_commands, skipped_commands)`. -/
def processLine (now : String) (acc : IRCodeSet × Nat × Nat) (line : String) :
    IRCodeSet × Nat × Nat :=
  match parse_line line with
  | none => acc
  | some (label, code, orig) =>
    match map_command label with
    | none => (acc.1, acc.2.1, acc.2.2 + 1)
    | some (cat, key) =>
      let cmd := mkIRCommand now label code (some orig) none false
      let r := acc.1.add_command now cat key cmd
      if r.2 then (r.1, acc.2.1 + 1, acc.2.2) else (r.1, acc.2.1, acc.2.2 + 1)

/-- `PointCodesParser.parse_content`: fold the loop over the lines of the
content, starting from a fresh code set.  The surrounding `try/except`
never fires in this pure model, so the always-`some` `Optional` wrapper is
omitted; the parsed/skipped counters are returned alongside the set. -/
def parse_content (now content device_id device_name : String) :
    IRCodeSet × Nat × Nat :=
  ((pySplitLines [] content.data).map String.mk).foldl (processLine now)
    (mkIRCodeSet now device_id device_name, 0, 0)

/-! ## `smartir_generator.py`: `SmartIRGenerator` -/

/-- `_get_hvac_mode_mapping` (insertion order; `sleep` maps to `auto`). -/
def hvac_mode_mapping : List (String × String) :=
  [("cool", "cool"), ("heat", "heat"), ("dry", "dry"),
   ("fan_only", "fan_only"), ("auto", "auto"), ("sleep", "auto")]

/-- `_get_fan_mode_mapping`. -/
def fan_mode_mapping : List (String × String) :=
  [("low", "low"), ("medium", "medium"), ("high", "high"), ("auto", "auto")]

/-- `_get_swing_mode_mapping` (`on` maps to `vertical`). -/
def swing_mode_mapping : List (String × String) :=
  [("off", "off"), ("on", "vertical")]

/-- The aligned `0`–`9` blocks of Unicode decimal digits (category `Nd`),
as classified by the CPython (3.11) `unicodedata` tables Home Assistant
runs on: `int()` accepts exactly these characters, each with value
`codepoint - start`. -/
def pyDecimalRanges : List (Nat × Nat) :=
  [(0x30, 10), (0x660, 10), (0x6F0, 10), (0x7C0, 10), (0x966, 10),
   (0x9E6, 10), (0xA66, 10), (0xAE6, 10), (0xB66, 10), (0xBE6, 10),
   (0xC66, 10), (0xCE6, 10), (0xD66, 10), (0xDE6, 10), (0xE50, 10),
   (0xED0, 10), (0xF20, 10), (0x1040, 10), (0x1090, 10), (0x17E0, 10),
   (0x1810, 10), (0x1946, 10), (0x19D0, 10), (0x1A80, 10), (0x1A90, 10),
   (0x1B50, 10), (0x1BB0, 10), (0x1C40, 10), (0x1C50, 10), (0xA620, 10),
   (0xA8D0, 10), (0xA900, 10), (0xA9D0, 10), (0xA9F0, 10), (0xAA50, 10),
   (0xABF0, 10), (0xFF10, 10), (0x104A0, 10), (0x10D30, 10), (0x11066, 10),
   (0x110F0, 10), (0x11136, 10), (0x111D0, 10), (0x112F0, 10), (0x11450, 10),
   (0x114D0, 10), (0x11650, 10), (0x116C0, 10), (0x11730, 10), (0x118E0, 10),
   (0x11950, 10), (0x11C50, 10), (0x11D50, 10), (0x11DA0, 10), (0x16A60, 10),
   (0x16AC0, 10), (0x16B50, 10), (0x1D7CE, 10), (0x1D7D8, 10), (0x1D7E2, 10),
   (0x1D7EC, 10), (0x1D7F6, 10), (0x1E140, 10), (0x1E2F0, 10), (0x1E950, 10),
   (0x1FBF0, 10)]

/-- Code-point runs of characters whose `str.isdigit()` is `True` but
which are not decimal digits, so `int()` raises `ValueError` on them:
superscripts (`²` U+00B2, `³`, `¹`, `⁰`, `⁴`–`⁹`), subscripts, Ethiopic
digits, circled and parenthesised digits, and the other
`Numeric_Type=Digit` characters of the same tables. -/
def pyDigitOnlyRanges : List (Nat × Nat) :=
  [(0xB2, 2), (0xB9, 1), (0x1369, 9), (0x19DA, 1), (0x2070, 1),
   (0x2074, 6), (0x2080, 10), (0x2460, 9), (0x2474, 9), (0x2488, 9),
   (0x24EA, 1), (0x24F5, 9), (0x24FF, 1), (0x2776, 9), (0x2780, 9),
   (0x278A, 9), (0x10A40, 4), (0x10E60, 9), (0x11052, 9), (0x1F100, 11)]

/-- The decimal value `int()` assigns to a single character; `none` when
the character is not a Unicode decimal digit. -/
def pyDecimalVal (c : Char) : Option Nat :=
  pyDecimalRanges.findSome? (fun r =>
    if r.1 ≤ c.toNat ∧ c.toNat < r.1 + r.2 then some (c.toNat - r.1) else none)

/-- Python `c.isdigit()` for one character: decimal digits plus the
digit-but-not-decimal characters. -/
def pyIsDigit (c : Char) : Bool :=
  (pyDecimalVal c).isSome ||
    pyDigitOnlyRanges.any (fun r => r.1 ≤ c.toNat && c.toNat < r.1 + r.2)

/-- Python `temp.isdigit()`: non-empty and every character a digit. -/
def strIsDigit (s : List Char) : Bool :=
  !s.isEmpty && s.all pyIsDigit

/-- Python `int(s)` on an `isdigit()`-true string — the only strings the
temperature comprehensions feed it: the base-10 value when every
character is a decimal digit (mixed scripts included), `none` — the
raised `ValueError` — when some character is a digit but not a decimal
digit. -/
def pyInt (s : List Char) : Option Nat :=
  s.foldl
    (fun acc c =>
      match acc, pyDecimalVal c with
      | some n, some v => some (n * 10 + v)
      | _, _ => none) (some 0)

/-- The comprehension
`[int(temp) for temp in code_set.temperature.keys() if temp.isdigit()]`
shared by `_get_temperature_range` and `_build_temperature_commands`:
keys in dict order, filtered by `isdigit()`, each passed to `int()`;
`none` models the `ValueError` raised on the first digit-but-not-decimal
key. -/
def digitTemps (cs : IRCodeSet) : Option (List Nat) :=
  ((cs.temperature.map (fun p => p.1)).filter (fun k => strIsDigit k.data)).mapM
    (fun k => pyInt k.data)

/-- `sorted(...)` of the digit temperature keys
(`_build_temperature_commands`), when the comprehension did not raise. -/
def available_temps (cs : IRCodeSet) : Option (List Nat) :=
  (digitTemps cs).map (fun ts => ts.insertionSort (· ≤ ·))

/-- `command and command.validated` on an optional command. -/
def usable (o : Option IRCommand) : Bool :=
  match o with
  | some c => c.validated
  | none => false

/-- The payload stored for one temperature key of the matrix: the
temperature-specific command's code when that command exists and is
validated, else the mode command's code (the `else` fallback of
`_build_temperature_commands`). -/
def tempPayload (cs : IRCodeSet) (mcmd : IRCommand) (s : String) : String :=
  match cs.get_command "temperature" s with
  | some tc => if tc.validated then tc.code else mcmd.code
  | none => mcmd.code

/-- The inner per-mode dict of `_build_temperature_commands`: one payload
per available temperature, keyed by `str(temp)`. -/
def innerTempMap (cs : IRCodeSet) (temps : List Nat) (mcmd : IRCommand) :
    List (String × String) :=
  temps.foldl
    (fun d t => dictInsert (toString t) (tempPayload cs mcmd (toString t)) d) []

/-- One iteration of the mode loop of `_build_temperature_commands`: a
missing or unvalidated mode command is skipped (`continue`); otherwise
the whole inner dict for that mode is assigned under its SmartIR name. -/
def tempModesStep (cs : IRCodeSet) (temps : List Nat)
    (d : List (String × List (String × String)))
    (p : String × String) : List (String × List (String × String)) :=
  match cs.get_command "mode" p.1 with
  | some mcmd =>
    if mcmd.validated then dictInsert p.2 (innerTempMap cs temps mcmd) d else d
  | none => d

/-- `SmartIRGenerator._build_temperature_commands`: `none` when the
temperature-key comprehension raises (the `ValueError` propagates to the
caller); empty when no digit temperature keys exist; otherwise one inner
dict per validated internal mode, keyed by its SmartIR mode name (a
later internal mode mapping to the same SmartIR name overwrites the
whole inner dict). -/
def build_temperature_commands (cs : IRCodeSet) :
    Option (List (String × List (String × String))) :=
  match available_temps cs with
  | none => none
  | some temps =>
    if temps = [] then some []
    else some (hvac_mode_mapping.foldl (tempModesStep cs temps) [])

/-- `SmartIRGenerator._build_fan_commands`. -/
def build_fan_commands (cs : IRCodeSet) : List (String × String) :=
  fan_mode_mapping.foldl
    (fun d p =>
      match cs.get_command "fan_speed" p.1 with
      | some c => if c.validated then dictInsert p.2 c.code d else d
      | none => d) []

/-- `SmartIRGenerator._build_swing_commands`. -/
def build_swing_commands (cs : IRCodeSet) : List (String × String) :=
  swing_mode_mapping.foldl
    (fun d p =>
      match cs.get_command "swing" p.1 with
      | some c => if c.validated then dictInsert p.2 c.code d else d
      | none => d) []

/-- One iteration of `_get_supported_modes`: append the validated mode's
SmartIR name unless it is already present. -/
def supportedModesStep (cs : IRCodeSet) (acc : List String) (p : String × String) :
    List String :=
  match cs.get_command "mode" p.1 with
  | some c =>
    if c.validated then (if p.2 ∈ acc then acc else acc ++ [p.2]) else acc
  | none => acc

/-- `SmartIRGenerator._get_supported_modes`: start from `["off"]` (off is
always included), then the mode loop. -/
def get_supported_modes (cs : IRCodeSet) : List String :=
  hvac_mode_mapping.foldl (supportedModesStep cs) ["off"]

/-- `SmartIRGenerator._get_supported_fan_modes`. -/
def get_supported_fan_modes (cs : IRCodeSet) : List String :=
  fan_mode_mapping.foldl
    (fun acc p => if usable (cs.get_command "fan_speed" p.1) then acc ++ [p.2] else acc) []

/-- `SmartIRGenerator._get_supported_swing_modes`. -/
def get_supported_swing_modes (cs : IRCodeSet) : List String :=
  swing_mode_mapping.foldl
    (fun acc p => if usable (cs.get_command "swing" p.1) then acc ++ [p.2] else acc) []

/-- `SmartIRGenerator._get_temperature_range`: min/max of the digit
temperature keys, or the Point-codes range when none exist; `none`
models the `ValueError` from `int()` escaping to the caller. -/
def get_temperature_range (cs : IRCodeSet) : Option (Nat × Nat) :=
  match digitTemps cs with
  | none => none
  | some [] => some (POINTCODES_MIN_TEMP, POINTCODES_MAX_TEMP)
  | some (t :: ts) => some (ts.foldl Nat.min t, ts.foldl Nat.max t)

/-- The SmartIR document built by `async_generate_smartir_config`.  The
constant `precision: 1.0` float and the informational `_metadata` block
(timestamps and command counts) carry no claim-relevant content and are
left out of the model. -/
structure SmartIRConfig where
  manufacturer : String
  supportedModels : List String
  supportedController : String
  commandsEncoding : String
  minTemperature : Nat
  maxTemperature : Nat
  operationModes : List String
  fanModes : List String
  swingModes : List String
  commands_off : String
  commands_on : String
  commands_temperature : List (String × List (String × String))
  commands_fanSpeed : List (String × String)
  commands_swing : List (String × String)
  deriving DecidableEq, Repr

/-- `SmartIRGenerator.async_generate_smartir_config`, after the code set
has been loaded: `None` when `power.on` or `power.off` is missing or not
validated (checked in that order, lines 208–217, before any `int()` is
reached); then `_get_temperature_range` (line 220), whose `ValueError`
on a digit-but-not-decimal temperature key is caught by the method's
outer `except` and yields `None`; the matrix comprehension inside the
document (line 237) reruns the same key computation and cannot raise
once the range computation succeeded.  The missing-essential-commands
check only logs a warning. -/
def generate_smartir_config (cs : IRCodeSet) : Option SmartIRConfig :=
  match cs.get_command "power" "on", cs.get_command "power" "off" with
  | some pon, some poff =>
    if pon.validated = false then none
    else if poff.validated = false then none
    else
      match get_temperature_range cs, build_temperature_commands cs with
      | some range, some matrix =>
        some
          { manufacturer := cs.manufacturer
            supportedModels := [cs.model]
            supportedController := "UFO-R11"
            commandsEncoding := "Base64"
            minTemperature := range.1
            maxTemperature := range.2
            operationModes := get_supported_modes cs
            fanModes := get_supported_fan_modes cs
            swingModes := get_supported_swing_modes cs
            commands_off := poff.code
            commands_on := pon.code
            commands_temperature := matrix
            commands_fanSpeed := build_fan_commands cs
            commands_swing := build_swing_commands cs }
      | _, _ => none
  | _, _ => none

/-! ## `device_manager.py`: the JSON import loop of `async_import_codes` -/

/-- A value met under `data["commands"][category][key]` in an import
document: a bare code string, a full command object, or anything else
(which the loop skips with `continue`). -/
inductive JsonCodeData where
  | strCode (code : String)
  | obj (d : IRCommandDict)
  | other
  deriving DecidableEq, Repr

/-- The command the import loop builds for one entry: bare strings get a
synthesized name and raw_data, objects go through `IRCommand.from_dict`,
anything else is skipped. -/
def importedCommand (now file_path category key : String) :
    JsonCodeData → Option IRCommand
  | .strCode code =>
    some (mkIRCommand now (category ++ "_" ++ key) code
      (some ("Imported from " ++ file_path)) none false)
  | .obj d => some (IRCommand.from_dict now d)
  | .other => none

/-- The import loop of the JSON branch of
`DeviceManager.async_import_codes`: fold over the categories and entries
of the document `json.load` handed back, `add_command` each built
command into the target code set, and count every add that returned
`True`. -/
def import_json_commands (now file_path : String) (cs : IRCodeSet)
    (doc : List (String × List (String × JsonCodeData))) : IRCodeSet × Nat :=
  doc.foldl
    (fun acc catEntry =>
      catEntry.2.foldl
        (fun acc2 kv =>
          match importedCommand now file_path catEntry.1 kv.1 kv.2 with
          | none => acc2
          | some cmd =>
            let r := acc2.1.add_command now catEntry.1 kv.1 cmd
            (r.1, if r.2 then acc2.2 + 1 else acc2.2)) acc) (cs, 0)

/-- `json.load` on one JSON object, seen as the raw sequence of its
key/value bindings: the dict is built by successive assignment, so a
duplicated key keeps its first slot and the last value wins — the loop
never sees the earlier bindings. -/
def jsonLoadPairs {α : Type} (raw : List (String × α)) : List (String × α) :=
  raw.foldl (fun d p => dictInsert p.1 p.2 d) []

/-- `json.load` applied to the `data["commands"]` object of an import
document: collapse the category object and each per-category object. -/
def json_load_commands (raw : List (String × List (String × JsonCodeData))) :
    List (String × List (String × JsonCodeData)) :=
  jsonLoadPairs (raw.map (fun c => (c.1, jsonLoadPairs c.2)))

/-- The JSON branch of `DeviceManager.async_import_codes` end to end:
`json.load` of the raw document (duplicate keys collapse, last value
wins), then the import loop over the parsed dicts. -/
def async_import_codes_json (now file_path : String) (cs : IRCodeSet)
    (raw : List (String × List (String × JsonCodeData))) : IRCodeSet × Nat :=
  import_json_commands now file_path cs (json_load_commands raw)

/-! ## `ir_codes.py`: `IRCodeManager.remove_device_codes` -/

/-- The state `IRCodeManager` acts on: the `_code_sets` cache and the
per-device JSON blobs under its storage path. -/
structure IRCodeManagerState where
  code_sets : List (String × IRCodeSet)
  storage : List (String × String)
  deriving DecidableEq, Repr

/-- `IRCodeManager.remove_device_codes`: when `device_id` is cached, drop
it from the cache, unlink its storage file when present (an unlink
failure is only logged), and return `True`; otherwise return `False`
without touching anything. -/
def remove_device_codes (st : IRCodeManagerState) (device_id : String) :
    IRCodeManagerState × Bool :=
  if (dictGet device_id st.code_sets).isSome then
    let st1 : IRCodeManagerState :=
      { st with code_sets := dictRemove device_id st.code_sets }
    let st2 : IRCodeManagerState :=
      if (dictGet device_id st1.storage).isSome then
        { st1 with storage := dictRemove device_id st1.storage }
      else st1
    (st2, true)
  else (st, false)

/-! ## Helper lemmas -/

theorem dictGet_dictInsert_self {α : Type} (k : String) (v : α) (d : List (String × α)) :
    dictGet k (dictInsert k v d) = some v := by
  induction d with
  | nil => simp [dictInsert, dictGet]
  | cons p rest ih =>
    by_cases h : p.1 = k
    · simp [dictInsert, dictGet, h]
    · simp only [dictInsert, dictGet] at *
      cases p with
      | mk k' v' =>
        simp only at h
        simp [h, List.find?, ih]

theorem dictGet_dictInsert_ne {α : Type} (k k' : String) (v : α) (d : List (String × α))
    (h : k' ≠ k) : dictGet k' (dictInsert k v d) = dictGet k' d := by
  induction d with
  | nil =>
    simp only [dictInsert, dictGet, List.find?]
    have : (decide (k = k')) = false := by
      simp only [decide_eq_false_iff_not]
      exact fun hh => h hh.symm
    simp [this]
  | cons p rest ih =>
    cases p with
    | mk a b =>
      by_cases ha : a = k
      · subst ha
        simp only [dictInsert, if_pos rfl, dictGet, List.find?]
        have : (decide (a = k')) = false := by
          simp [decide_eq_false_iff_not]
          exact fun hh => h hh.symm
        simp [this]
      · simp only [dictInsert, if_neg ha, dictGet, List.find?] at *
        by_cases hb : a = k'
        · simp [hb]
        · have : (decide (a = k')) = false := by simp [hb]
          simp [this, ih]

theorem dictGet_dictRemove_self {α : Type} (k : String) (d : List (String × α)) :
    dictGet k (dictRemove k d) = none := by
  induction d with
  | nil => simp [dictRemove, dictGet]
  | cons p rest ih =>
    cases p with
    | mk a b =>
      by_cases h : a = k
      · simpa [dictRemove, List.filter, h] using ih
      · have hd : (decide (a = k)) = false := by simp [h]
        simp only [dictRemove, List.filter] at *
        simp only [hd, decide_not, Bool.not_false]
        simp [dictGet, List.find?, hd, dictRemove] at *

theorem mem_dictInsert {α : Type} {q : String × α} {k : String} {v : α}
    {d : List (String × α)} (h : q ∈ dictInsert k v d) : q = (k, v) ∨ q ∈ d := by
  induction d with
  | nil => simpa [dictInsert] using h
  | cons p rest ih =>
    obtain ⟨a, b⟩ := p
    by_cases hk : a = k
    · subst hk
      simp only [dictInsert, if_pos, List.mem_cons] at h
      rcases h with h | h
      · exact Or.inl h
      · exact Or.inr (List.mem_cons_of_mem _ h)
    · simp only [dictInsert, if_neg hk, List.mem_cons] at h
      rcases h with h | h
      · exact Or.inr (by simp [h])
      · rcases ih h with h' | h'
        · exact Or.inl h'
        · exact Or.inr (List.mem_cons_of_mem _ h')

theorem dictGet_eq_some_mem {α : Type} {k : String} {v : α} {d : List (String × α)}
    (h : dictGet k d = some v) : (k, v) ∈ d := by
  unfold dictGet at h
  cases hf : d.find? (fun p => p.1 = k) with
  | none => simp [hf] at h
  | some q =>
    simp only [hf, Option.map_some'] at h
    have hq : q ∈ d := List.mem_of_find?_eq_some hf
    have hk : q.1 = k := by
      have := List.find?_some hf
      simpa using this
    obtain ⟨a, b⟩ := q
    simp only at hk h
    subst hk
    have hb : b = v := Option.some.inj h
    subst hb
    exact hq

theorem dictGet_isSome_dictInsert {α : Type} (k k' : String) (v : α)
    (d : List (String × α)) (h : (dictGet k d).isSome = true) :
    (dictGet k (dictInsert k' v d)).isSome = true := by
  by_cases hk : k' = k
  · subst hk
    simp [dictGet_dictInsert_self]
  · rw [dictGet_dictInsert_ne _ _ _ _ (fun hh => hk hh.symm)]
    exact h

/-! ## Claims -/

/-- C1, counterexample: `IRCommand.from_dict` does **not** take the stored
`validated` flag from the dictionary: for a dictionary carrying
`validated=True` over a non-Base64 code, the reconstructed command has
`validated=False`, because `__post_init__` recomputes the flag from the
code string. -/
theorem c1_validated_not_trusted_counterexample :
    (IRCommand.from_dict "t0"
        { name := "cmd", code := "!!!", raw_data := none,
          timestamp := some "ts", validated := true }).validated ≠
      (({ name := "cmd", code := "!!!", raw_data := none,
          timestamp := some "ts", validated := true } : IRCommandDict)).validated := by
  decide

/-- C1, amended: `to_dict`/`from_dict` round-trips every field of any
command produced by the `IRCommand` constructor — but `validated`
round-trips because `__post_init__` deterministically recomputes it from
the code string on reconstruction (and had computed the same value at
original construction), not because the stored flag is trusted. -/
theorem c1_roundtrip_validated_recomputed (now now' name code : String)
    (rd ts : Option String) (v : Bool) (d : IRCommandDict) :
    IRCommand.from_dict now' (IRCommand.to_dict (mkIRCommand now name code rd ts v)) =
        mkIRCommand now name code rd ts v ∧
      (IRCommand.from_dict now' d).validated = validate_base64 d.code := by
  constructor
  · simp [IRCommand.from_dict, IRCommand.to_dict, mkIRCommand]
  · rfl

/-- C4: constructing an `IRCommand` is total (the model is a total
function: `_validate_base64` catches every decoding error), and the
resulting `validated` flag is `true` exactly when the code string decodes
under strict Base64 to a non-empty byte sequence — whatever `validated`
value was passed to the constructor. -/
theorem c4_validated_iff_base64_nonempty (now name code : String)
    (rd ts : Option String) (v : Bool) :
    (mkIRCommand now name code rd ts v).validated = true ↔
      ∃ bytes, b64decodeValidate code.data = some bytes ∧ 0 < bytes.length := by
  show validate_base64 code = true ↔ _
  unfold validate_base64
  cases h : b64decodeValidate code.data with
  | none => simp
  | some bytes => simp

/-- C2: SmartIR generation of a loaded code set returns `None` whenever
the `power.on` command or the `power.off` command is missing or not
validated (checked before anything else can fail); and when both are
present and validated, generation never fails on this precondition — it
succeeds exactly when the temperature-key comprehension does not raise
(`int()` on a digit-but-not-decimal key), the one remaining failure
path. -/
theorem c2_generate_power_precondition (cs : IRCodeSet) :
    (¬ (usable (cs.get_command "power" "on") = true ∧
        usable (cs.get_command "power" "off") = true) →
      generate_smartir_config cs = none) ∧
    (usable (cs.get_command "power" "on") = true →
      usable (cs.get_command "power" "off") = true →
      (generate_smartir_config cs).isSome = (digitTemps cs).isSome) := by
  constructor
  · intro h
    unfold generate_smartir_config
    cases hon : cs.get_command "power" "on" with
    | none => rfl
    | some pon =>
      cases hoff : cs.get_command "power" "off" with
      | none => rfl
      | some poff =>
        simp only [usable, hon, hoff] at h
        by_cases hv : pon.validated = true
        · have hv2 : poff.validated = false := by
            cases hvo : poff.validated
            · rfl
            · exact absurd ⟨hv, hvo⟩ h
          simp [hv, hv2]
        · have hv' : pon.validated = false := by
            cases hvo : pon.validated
            · rfl
            · exact absurd hvo hv
          simp [hv']
  · intro h1 h2
    unfold generate_smartir_config
    cases hon : cs.get_command "power" "on" with
    | none => simp [usable, hon] at h1
    | some pon =>
      cases hoff : cs.get_command "power" "off" with
      | none => simp [usable, hoff] at h2
      | some poff =>
        have hp1 : pon.validated = true := by simpa [usable, hon] using h1
        have hp2 : poff.validated = true := by simpa [usable, hoff] using h2
        simp only [hp1, hp2, Bool.true_eq_false, if_false]
        cases hd : digitTemps cs with
        | none =>
          have hr : get_temperature_range cs = none := by
            unfold get_temperature_range
            rw [hd]
          rw [hr]
          rfl
        | some ts =>
          obtain ⟨r, hr⟩ : ∃ r, get_temperature_range cs = some r := by
            unfold get_temperature_range
            rw [hd]
            cases ts with
            | nil => exact ⟨_, rfl⟩
            | cons t tr => exact ⟨_, rfl⟩
          obtain ⟨mx, hmx⟩ : ∃ mx, build_temperature_commands cs = some mx := by
            unfold build_temperature_commands available_temps
            rw [hd]
            dsimp only [Option.map_some']
            by_cases hs : ts.insertionSort (· ≤ ·) = []
            · rw [if_pos hs]
              exact ⟨_, rfl⟩
            · rw [if_neg hs]
              exact ⟨_, rfl⟩
          rw [hr, hmx]
          rfl

/-- Witness for C2: with valid `power.on` and `power.off` commands
generation succeeds (the temperature comprehension on the `"20"` key
does not raise); with `power.off` missing it returns `None`. -/
theorem c2_generate_power_witness :
    (generate_smartir_config
        { mkIRCodeSet "t0" "dev" "Dev" with
            power := [("on", mkIRCommand "t0" "ON" "QUJD" none none false),
              ("off", mkIRCommand "t0" "OFF" "REVG" none none false)],
            temperature := [("20", mkIRCommand "t0" "20c" "RkdI" none none false)] }).isSome =
      (digitTemps
        { mkIRCodeSet "t0" "dev" "Dev" with
            power := [("on", mkIRCommand "t0" "ON" "QUJD" none none false),
              ("off", mkIRCommand "t0" "OFF" "REVG" none none false)],
            temperature := [("20", mkIRCommand "t0" "20c" "RkdI" none none false)] }).isSome ∧
    generate_smartir_config
        { mkIRCodeSet "t0" "dev" "Dev" with
            power := [("on", mkIRCommand "t0" "ON" "QUJD" none none false)] } = none :=
  ⟨(c2_generate_power_precondition
      { mkIRCodeSet "t0" "dev" "Dev" with
          power := [("on", mkIRCommand "t0" "ON" "QUJD" none none false),
            ("off", mkIRCommand "t0" "OFF" "REVG" none none false)],
          temperature := [("20", mkIRCommand "t0" "20c" "RkdI" none none false)] }).2
      (by decide) (by decide),
    (c2_generate_power_precondition
      { mkIRCodeSet "t0" "dev" "Dev" with
          power := [("on", mkIRCommand "t0" "ON" "QUJD" none none false)] }).1
      (by decide)⟩

/-- C3, counterexample: the claim fails on the code: `"__dict__"` is not
one of the six fixed category names, yet `add_command` resolves it via
`getattr` to the instance attribute table, the item assignment succeeds,
state changes (`updated_at` is bumped and the write lands) and `True` is
returned — not `False` with the code set unchanged. -/
theorem c3_dunder_category_counterexample :
    "__dict__" ∉ categoryNames ∧
    ((mkIRCodeSet "t0" "dev" "Dev").add_command "t1" "__dict__" "foo"
        (mkIRCommand "t0" "X" "QUJD" none none false)).2 = true ∧
    ((mkIRCodeSet "t0" "dev" "Dev").add_command "t1" "__dict__" "foo"
        (mkIRCommand "t0" "X" "QUJD" none none false)).1 ≠ mkIRCodeSet "t0" "dev" "Dev" := by
  decide

/-- C3, amended: `add_command` is total (every failure path in the source
is caught and returns `False`).  For a category that is neither one of
the six fixed names nor one of the dict-valued reflective attribute
names it returns `False` and leaves the code set unchanged; for each of
the six names it stores the command under `key` (inserting or
overwriting), bumps `updated_at` and returns `True`; for the reflective
names (`__dict__`, `__annotations__`, `__dataclass_fields__`) the item
assignment also succeeds — state is mutated, `updated_at` is bumped and
`True` is returned. -/
theorem c3_add_command_closed_categories (cs : IRCodeSet) (now category key : String)
    (cmd : IRCommand) :
    (category ∉ categoryNames → category ∉ dunderDictAttrs →
      cs.add_command now category key cmd = (cs, false)) ∧
    (category ∈ categoryNames →
      (cs.add_command now category key cmd).2 = true ∧
      (cs.add_command now category key cmd).1.get_command category key = some cmd ∧
      (cs.add_command now category key cmd).1.updated_at = some now) ∧
    (category ∈ dunderDictAttrs →
      (cs.add_command now category key cmd).2 = true ∧
      (cs.add_command now category key cmd).1.updated_at = some now) := by
  refine ⟨?_, ?_, ?_⟩
  · intro h hd
    simp only [categoryNames, List.mem_cons, List.not_mem_nil, or_false] at h
    push_neg at h
    obtain ⟨h1, h2, h3, h4, h5, h6⟩ := h
    simp [IRCodeSet.add_command, h1, h2, h3, h4, h5, h6, hd]
  · intro h
    fin_cases h <;>
      simp [IRCodeSet.add_command, IRCodeSet.get_command, dictGet_dictInsert_self]
  · intro h
    have h6 : category ∉ categoryNames := by
      fin_cases h <;> decide
    simp only [categoryNames, List.mem_cons, List.not_mem_nil, or_false] at h6
    push_neg at h6
    obtain ⟨g1, g2, g3, g4, g5, g6⟩ := h6
    simp [IRCodeSet.add_command, g1, g2, g3, g4, g5, g6, h]

/-- Witness for C3: adding at category `"power"` succeeds and stores the
command; adding at category `"colour"` fails and changes nothing; adding
at the reflective `"__dict__"` succeeds and bumps `updated_at`. -/
theorem c3_add_command_witness :
    (((mkIRCodeSet "t0" "dev" "Dev").add_command "t1" "power" "on"
        (mkIRCommand "t0" "ON" "QUJD" none none false)).2 = true ∧
      ((mkIRCodeSet "t0" "dev" "Dev").add_command "t1" "power" "on"
        (mkIRCommand "t0" "ON" "QUJD" none none false)).1.get_command "power" "on" =
          some (mkIRCommand "t0" "ON" "QUJD" none none false) ∧
      ((mkIRCodeSet "t0" "dev" "Dev").add_command "t1" "power" "on"
        (mkIRCommand "t0" "ON" "QUJD" none none false)).1.updated_at = some "t1") ∧
    (mkIRCodeSet "t0" "dev" "Dev").add_command "t1" "colour" "x"
        (mkIRCommand "t0" "X" "QUJD" none none false) = (mkIRCodeSet "t0" "dev" "Dev", false) ∧
    (((mkIRCodeSet "t0" "dev" "Dev").add_command "t1" "__dict__" "x"
        (mkIRCommand "t0" "X" "QUJD" none none false)).2 = true ∧
      ((mkIRCodeSet "t0" "dev" "Dev").add_command "t1" "__dict__" "x"
        (mkIRCommand "t0" "X" "QUJD" none none false)).1.updated_at = some "t1") := by
  refine ⟨(c3_add_command_closed_categories (mkIRCodeSet "t0" "dev" "Dev") "t1" "power" "on"
      (mkIRCommand "t0" "ON" "QUJD" none none false)).2.1 (by decide),
    (c3_add_command_closed_categories (mkIRCodeSet "t0" "dev" "Dev") "t1" "colour" "x"
      (mkIRCommand "t0" "X" "QUJD" none none false)).1 (by decide) (by decide),
    (c3_add_command_closed_categories (mkIRCodeSet "t0" "dev" "Dev") "t1" "__dict__" "x"
      (mkIRCommand "t0" "X" "QUJD" none none false)).2.2 (by decide)⟩

/-- C8: a line that does not contain the `" - "` separator is rejected by
`_parse_line` (`None`), and the parsing loop therefore leaves the code
set and the parsed counter unchanged — a soft skip, not an exception. -/
theorem c8_no_separator_line_skipped (now line : String) (acc : IRCodeSet × Nat × Nat)
    (h : ¬ (" - ".data <:+: line.data)) :
    parse_line line = none ∧ processLine now acc line = acc := by
  have htrim : ¬ (" - ".data <:+: listTrim line.data) := by
    intro hc
    exact h (hc.trans ((List.rdropWhile_prefix pyIsSpace
      (line.data.dropWhile pyIsSpace)).isInfix.trans
        (List.dropWhile_suffix pyIsSpace).isInfix))
  have hp : parse_line line = none := by
    unfold parse_line
    by_cases ht : listTrim line.data = []
    · simp [ht]
    · simp [ht, htrim]
  exact ⟨hp, by unfold processLine; rw [hp]⟩

/-- Witness for C8 on the separator-free line `"hello"`. -/
theorem c8_no_separator_witness :
    parse_line "hello" = none ∧
      processLine "t0" (mkIRCodeSet "t0" "dev" "Dev", 0, 0) "hello" =
        (mkIRCodeSet "t0" "dev" "Dev", 0, 0) :=
  c8_no_separator_line_skipped "t0" "hello" (mkIRCodeSet "t0" "dev" "Dev", 0, 0) (by decide)

theorem remove_device_codes_not_cached (st : IRCodeManagerState) (d : String)
    (h : dictGet d st.code_sets = none) : remove_device_codes st d = (st, false) := by
  simp [remove_device_codes, h]

/-- C9, counterexample: in the blob-only state — nothing cached (say a
fresh manager after a restart) but a persisted blob on disk for the
device — `remove_device_codes` returns `False` and leaves the blob in
place: the operation does not delete the persisted blob keyed by that
device id, and it returns `False` although something existed for it. -/
theorem c9_blob_only_counterexample :
    dictGet "dev" (IRCodeManagerState.mk [] [("dev", "blob")]).storage = some "blob" ∧
    remove_device_codes ⟨[], [("dev", "blob")]⟩ "dev" = (⟨[], [("dev", "blob")]⟩, false) ∧
    dictGet "dev" (remove_device_codes ⟨[], [("dev", "blob")]⟩ "dev").1.storage =
      some "blob" := by
  decide

/-- C9, amended: `remove_device_codes` is keyed on the in-memory cache
alone.  When the device is not cached it returns `False` and changes
nothing — even when a persisted blob for it exists on disk, which then
survives; when it is cached it returns `True`, drops the cached code set
and deletes the persisted blob when present, and a second remove then
returns `False` on the unchanged state (idempotence). -/
theorem c9_remove_device_codes_spec (st : IRCodeManagerState) (d : String) :
    (dictGet d st.code_sets = none → remove_device_codes st d = (st, false)) ∧
    ((dictGet d st.code_sets).isSome = true →
      (remove_device_codes st d).2 = true ∧
      dictGet d (remove_device_codes st d).1.code_sets = none ∧
      dictGet d (remove_device_codes st d).1.storage = none ∧
      remove_device_codes (remove_device_codes st d).1 d =
        ((remove_device_codes st d).1, false)) := by
  constructor
  · exact remove_device_codes_not_cached st d
  · intro h
    have hcs : (remove_device_codes st d).1.code_sets = dictRemove d st.code_sets := by
      unfold remove_device_codes
      rw [if_pos h]
      by_cases hs : (dictGet d st.storage).isSome = true <;> simp [hs]
    have hget : dictGet d (remove_device_codes st d).1.code_sets = none := by
      rw [hcs]; exact dictGet_dictRemove_self d st.code_sets
    refine ⟨by unfold remove_device_codes; rw [if_pos h], hget, ?_, ?_⟩
    · unfold remove_device_codes
      rw [if_pos h]
      by_cases hs : (dictGet d st.storage).isSome = true
      · simp only [if_pos hs]
        exact dictGet_dictRemove_self d st.storage
      · simp only [if_neg hs]
        exact Option.not_isSome_iff_eq_none.mp hs
    · exact remove_device_codes_not_cached (remove_device_codes st d).1 d hget

/-- Witness for C9 on a one-device state: both the cached and the
uncached branches at a concrete input. -/
theorem c9_remove_device_codes_witness :
    ((remove_device_codes
        ⟨[("dev", mkIRCodeSet "t0" "dev" "Dev")], [("dev", "blob")]⟩ "dev").2 = true ∧
      dictGet "dev" (remove_device_codes
        ⟨[("dev", mkIRCodeSet "t0" "dev" "Dev")], [("dev", "blob")]⟩ "dev").1.code_sets = none ∧
      dictGet "dev" (remove_device_codes
        ⟨[("dev", mkIRCodeSet "t0" "dev" "Dev")], [("dev", "blob")]⟩ "dev").1.storage = none ∧
      remove_device_codes (remove_device_codes
        ⟨[("dev", mkIRCodeSet "t0" "dev" "Dev")], [("dev", "blob")]⟩ "dev").1 "dev" =
        ((remove_device_codes
          ⟨[("dev", mkIRCodeSet "t0" "dev" "Dev")], [("dev", "blob")]⟩ "dev").1, false)) ∧
    remove_device_codes
        ⟨[("dev", mkIRCodeSet "t0" "dev" "Dev")], [("dev", "blob")]⟩ "other" =
      (⟨[("dev", mkIRCodeSet "t0" "dev" "Dev")], [("dev", "blob")]⟩, false) :=
  ⟨(c9_remove_device_codes_spec
      ⟨[("dev", mkIRCodeSet "t0" "dev" "Dev")], [("dev", "blob")]⟩ "dev").2 (by decide),
    (c9_remove_device_codes_spec
      ⟨[("dev", mkIRCodeSet "t0" "dev" "Dev")], [("dev", "blob")]⟩ "other").1 (by decide)⟩

theorem dictInsert_length_of_isSome {α : Type} (k : String) (d : List (String × α))
    (h : (dictGet k d).isSome = true) (v : α) :
    (dictInsert k v d).length = d.length := by
  induction d with
  | nil => simp [dictGet] at h
  | cons p rest ih =>
    obtain ⟨a, b⟩ := p
    by_cases hk : a = k
    · simp [dictInsert, hk]
    · have hd : (decide (a = k)) = false := by simp [hk]
      simp only [dictGet, List.find?, hd] at h
      simp only [dictInsert, if_neg hk, List.length_cons]
      rw [ih (by simpa [dictGet] using h)]

/-- C7, counterexample: `json.load` collapses a duplicated JSON object
key before the import loop runs, so importing a document that binds
`(power, on)` twice performs a single add and reports an imported count
of 1 — not one count per occurrence in the document; the second value
does win. -/
theorem c7_import_duplicate_counterexample :
    (async_import_codes_json "t0" "f.json" (mkIRCodeSet "t0" "dev" "Dev")
        [("power", [("on", JsonCodeData.obj
            ⟨"first", "QUJD", none, some "ts", true⟩),
          ("on", JsonCodeData.obj
            ⟨"second", "REVG", none, some "ts", true⟩)])]).2 = 1 ∧
    ¬ ((async_import_codes_json "t0" "f.json" (mkIRCodeSet "t0" "dev" "Dev")
        [("power", [("on", JsonCodeData.obj
            ⟨"first", "QUJD", none, some "ts", true⟩),
          ("on", JsonCodeData.obj
            ⟨"second", "REVG", none, some "ts", true⟩)])]).2 = 2) ∧
    (async_import_codes_json "t0" "f.json" (mkIRCodeSet "t0" "dev" "Dev")
        [("power", [("on", JsonCodeData.obj
            ⟨"first", "QUJD", none, some "ts", true⟩),
          ("on", JsonCodeData.obj
            ⟨"second", "REVG", none, some "ts", true⟩)])]).1.get_command "power" "on" =
      some (IRCommand.from_dict "t0" ⟨"second", "REVG", none, some "ts", true⟩) := by
  decide

/-- C7, amended: for a raw JSON document binding the same
`(category, key)` twice, `json.load` collapses the duplicate before the
loop (last value wins, so the second command ends up in the code set),
the loop performs one add for the surviving entry and reports an
imported count of 1; the count tallies the loop's successful add
attempts, not the final distinct entries — overwriting a pre-existing
entry still counts 1 while the code set's command count is unchanged. -/
theorem c7_import_duplicate_collapsed (now fp key : String) (cs : IRCodeSet)
    (category : String) (d1 d2 : IRCommandDict) (h : category ∈ categoryNames) :
    (async_import_codes_json now fp cs
        [(category, [(key, JsonCodeData.obj d1), (key, JsonCodeData.obj d2)])]).1.get_command
        category key = some (IRCommand.from_dict now d2) ∧
    (async_import_codes_json now fp cs
        [(category, [(key, JsonCodeData.obj d1), (key, JsonCodeData.obj d2)])]).2 = 1 ∧
    ((cs.get_command category key).isSome = true →
      (async_import_codes_json now fp cs
        [(category, [(key, JsonCodeData.obj d1),
          (key, JsonCodeData.obj d2)])]).1.get_command_count = cs.get_command_count) := by
  have hload : json_load_commands
      [(category, [(key, JsonCodeData.obj d1), (key, JsonCodeData.obj d2)])] =
      [(category, [(key, JsonCodeData.obj d2)])] := by
    simp [json_load_commands, jsonLoadPairs, dictInsert]
  fin_cases h <;>
    refine ⟨?_, ?_, fun hpre => ?_⟩ <;>
    simp only [async_import_codes_json, hload] <;>
    first
    | (simp [import_json_commands, importedCommand, IRCodeSet.add_command,
         IRCodeSet.get_command, dictGet_dictInsert_self]
       done)
    | (simp [IRCodeSet.get_command] at hpre
       simp [import_json_commands, importedCommand, IRCodeSet.add_command,
         IRCodeSet.get_command_count, IRCodeSet.get_all_commands, dictLen,
         dictInsert_length_of_isSome _ _ hpre])

/-- Witness for C7: importing a document with `power.on` bound twice over
a code set that already holds `power.on` stores the second command,
reports count 1, and leaves the total distinct command count unchanged. -/
theorem c7_import_duplicate_witness :
    (async_import_codes_json "t0" "f.json"
        { mkIRCodeSet "t0" "dev" "Dev" with
            power := [("on", mkIRCommand "t0" "old" "QUJD" none none false)] }
        [("power", [("on", JsonCodeData.obj
            ⟨"first", "QUJD", none, some "ts", true⟩),
          ("on", JsonCodeData.obj
            ⟨"second", "REVG", none, some "ts", true⟩)])]).1.get_command "power" "on" =
        some (IRCommand.from_dict "t0" ⟨"second", "REVG", none, some "ts", true⟩) ∧
    (async_import_codes_json "t0" "f.json"
        { mkIRCodeSet "t0" "dev" "Dev" with
            power := [("on", mkIRCommand "t0" "old" "QUJD" none none false)] }
        [("power", [("on", JsonCodeData.obj
            ⟨"first", "QUJD", none, some "ts", true⟩),
          ("on", JsonCodeData.obj
            ⟨"second", "REVG", none, some "ts", true⟩)])]).2 = 1 ∧
    (async_import_codes_json "t0" "f.json"
        { mkIRCodeSet "t0" "dev" "Dev" with
            power := [("on", mkIRCommand "t0" "old" "QUJD" none none false)] }
        [("power", [("on", JsonCodeData.obj
            ⟨"first", "QUJD", none, some "ts", true⟩),
          ("on", JsonCodeData.obj
            ⟨"second", "REVG", none, some "ts", true⟩)])]).1.get_command_count =
      ({ mkIRCodeSet "t0" "dev" "Dev" with
          power := [("on", mkIRCommand "t0" "old" "QUJD" none none false)]
            : IRCodeSet }).get_command_count := by
  have h := c7_import_duplicate_collapsed "t0" "f.json" "on"
      { mkIRCodeSet "t0" "dev" "Dev" with
          power := [("on", mkIRCommand "t0" "old" "QUJD" none none false)] }
      "power" ⟨"first", "QUJD", none, some "ts", true⟩
      ⟨"second", "REVG", none, some "ts", true⟩ (by decide)
  exact ⟨h.1, h.2.1, h.2.2 (by decide)⟩

/-- C5: parsing the three lines `"ON - QUJD"`, `"OFF - REVG"`,
`"20c - RkdI"` populates `power.on`, `power.off` and `temperature."20"`
and counts 3 commands; and the exact-match table maps `ON` to
`(power, on)`, `OFF` to `(power, off)`, and `"{T}c"` to
`(temperature, str(T))` for every integer `T` from
`POINTCODES_MIN_TEMP` to `POINTCODES_MAX_TEMP` inclusive. -/
theorem c5_parse_three_lines_and_table :
    ((parse_content "t0" "ON - QUJD\nOFF - REVG\n20c - RkdI" "dev" "Dev").1.get_command
        "power" "on").isSome = true ∧
    ((parse_content "t0" "ON - QUJD\nOFF - REVG\n20c - RkdI" "dev" "Dev").1.get_command
        "power" "off").isSome = true ∧
    ((parse_content "t0" "ON - QUJD\nOFF - REVG\n20c - RkdI" "dev" "Dev").1.get_command
        "temperature" "20").isSome = true ∧
    (parse_content "t0" "ON - QUJD\nOFF - REVG\n20c - RkdI" "dev" "Dev").1.get_command_count
        = 3 ∧
    dictGet "ON" command_mappings = some ("power", "on") ∧
    dictGet "OFF" command_mappings = some ("power", "off") ∧
    ((List.range' POINTCODES_MIN_TEMP (POINTCODES_MAX_TEMP + 1 - POINTCODES_MIN_TEMP)).all
      (fun t => decide (dictGet (toString t ++ "c") command_mappings =
        some ("temperature", toString t)))) = true := by
  decide

theorem modes_foldl_prefix (cs : IRCodeSet) (l : List (String × String))
    (acc : List String) : acc <+: l.foldl (supportedModesStep cs) acc := by
  induction l generalizing acc with
  | nil => exact List.prefix_rfl
  | cons hd tl ih =>
    have hstep : acc <+: supportedModesStep cs acc hd := by
      unfold supportedModesStep
      cases h : cs.get_command "mode" hd.1 with
      | none => exact List.prefix_rfl
      | some c =>
        by_cases hv : c.validated = true
        · by_cases hm : hd.2 ∈ acc
          · simp only [hv, if_pos hm, if_true]
            exact List.prefix_rfl
          · simp only [hv, if_neg hm, if_true]
            exact List.prefix_append acc [hd.2]
        · simp only [Bool.not_eq_true] at hv
          simp only [hv]
          exact List.prefix_rfl
    exact hstep.trans (ih _)

theorem modes_foldl_nodup (cs : IRCodeSet) (l : List (String × String))
    (acc : List String) (h : acc.Nodup) :
    (l.foldl (supportedModesStep cs) acc).Nodup := by
  induction l generalizing acc with
  | nil => exact h
  | cons hd tl ih =>
    refine ih _ ?_
    unfold supportedModesStep
    cases hc : cs.get_command "mode" hd.1 with
    | none => exact h
    | some c =>
      by_cases hv : c.validated = true
      · by_cases hm : hd.2 ∈ acc
        · simpa [hv, hm] using h
        · simp only [hv, if_neg hm, if_true]
          simp [List.nodup_append, h, hm]
      · simp only [Bool.not_eq_true] at hv
        simpa [hv] using h

theorem modes_foldl_mem (cs : IRCodeSet) (l : List (String × String))
    (acc : List String) (m : String)
    (h : m ∈ l.foldl (supportedModesStep cs) acc) :
    m ∈ acc ∨ ∃ im, (im, m) ∈ l ∧ usable (cs.get_command "mode" im) = true := by
  induction l generalizing acc with
  | nil => exact Or.inl h
  | cons hd tl ih =>
    rcases ih (supportedModesStep cs acc hd) h with h' | ⟨im, him, hu⟩
    · unfold supportedModesStep at h'
      cases hc : cs.get_command "mode" hd.1 with
      | none =>
        rw [hc] at h'
        exact Or.inl h'
      | some c =>
        rw [hc] at h'
        by_cases hv : c.validated = true
        · by_cases hm : hd.2 ∈ acc
          · rw [if_pos hm] at h'
            simp only [hv, if_true] at h'
            exact Or.inl h'
          · simp only [hv, if_neg hm, if_true, List.mem_append, List.mem_singleton] at h'
            rcases h' with h' | h'
            · exact Or.inl h'
            · subst h'
              exact Or.inr ⟨hd.1, List.mem_cons_self _ _, by simp [usable, hc, hv]⟩
        · simp only [Bool.not_eq_true] at hv
          simp only [hv, Bool.false_eq_true, if_false] at h'
          exact Or.inl h'
    · exact Or.inr ⟨im, List.mem_cons_of_mem _ him, hu⟩

/-- C10: for every code set, the generated `operationModes` list starts
with `"off"` (whatever mode commands exist), has no duplicates, and each
entry other than `"off"` is the SmartIR name of some internal mode whose
mode command exists and is validated. -/
theorem c10_operation_modes_off_first (cs : IRCodeSet) :
    (get_supported_modes cs).head? = some "off" ∧
    (get_supported_modes cs).Nodup ∧
    ∀ m, m ∈ get_supported_modes cs → m ≠ "off" →
      ∃ im, (im, m) ∈ hvac_mode_mapping ∧ usable (cs.get_command "mode" im) = true := by
  refine ⟨?_, ?_, ?_⟩
  · obtain ⟨t, ht⟩ := modes_foldl_prefix cs hvac_mode_mapping ["off"]
    unfold get_supported_modes
    rw [← ht]
    rfl
  · exact modes_foldl_nodup cs hvac_mode_mapping ["off"] (by simp)
  · intro m hm hne
    rcases modes_foldl_mem cs hvac_mode_mapping ["off"] m hm with h | h
    · simp only [List.mem_singleton] at h
      exact absurd h hne
    · exact h

/-- Witness for C10 on a code set whose only validated mode is `cool`:
`"off"` heads the list and `"cool"` is justified by the `cool` command. -/
theorem c10_operation_modes_witness :
    (get_supported_modes
        { mkIRCodeSet "t0" "dev" "Dev" with
            mode := [("cool", mkIRCommand "t0" "Mode cool" "QUJD" none none false)] }).head?
      = some "off" ∧
    ∃ im, (im, "cool") ∈ hvac_mode_mapping ∧
      usable (IRCodeSet.get_command
        { mkIRCodeSet "t0" "dev" "Dev" with
            mode := [("cool", mkIRCommand "t0" "Mode cool" "QUJD" none none false)] }
        "mode" im) = true :=
  ⟨(c10_operation_modes_off_first
      { mkIRCodeSet "t0" "dev" "Dev" with
          mode := [("cool", mkIRCommand "t0" "Mode cool" "QUJD" none none false)] }).1,
    (c10_operation_modes_off_first
      { mkIRCodeSet "t0" "dev" "Dev" with
          mode := [("cool", mkIRCommand "t0" "Mode cool" "QUJD" none none false)] }).2.2
      "cool" (by decide) (by decide)⟩

theorem foldl_dictInsert_value_inv {α : Type} (f : String → α) (g : Nat → String)
    (ts : List Nat) (acc : List (String × α))
    (hacc : ∀ q ∈ acc, q.2 = f q.1) :
    ∀ q ∈ ts.foldl (fun d u => dictInsert (g u) (f (g u)) d) acc, q.2 = f q.1 := by
  induction ts generalizing acc with
  | nil => exact hacc
  | cons hd tl ih =>
    refine ih _ ?_
    intro q hq
    rcases mem_dictInsert hq with h | h
    · subst h
      rfl
    · exact hacc q h

theorem foldl_dictInsert_preserve {α : Type} (f : String → α) (g : Nat → String)
    (ts : List Nat) (acc : List (String × α)) (k : String)
    (h : (dictGet k acc).isSome = true) :
    (dictGet k (ts.foldl (fun d u => dictInsert (g u) (f (g u)) d) acc)).isSome = true := by
  induction ts generalizing acc with
  | nil => exact h
  | cons hd tl ih => exact ih _ (dictGet_isSome_dictInsert k (g hd) (f (g hd)) acc h)

theorem foldl_dictInsert_present {α : Type} (f : String → α) (g : Nat → String)
    (ts : List Nat) (acc : List (String × α)) (t : Nat) (h : t ∈ ts) :
    (dictGet (g t) (ts.foldl (fun d u => dictInsert (g u) (f (g u)) d) acc)).isSome = true := by
  induction ts generalizing acc with
  | nil => cases h
  | cons hd tl ih =>
    rcases List.mem_cons.mp h with h' | h'
    · subst h'
      exact foldl_dictInsert_preserve f g tl _ (g t)
        (by rw [dictGet_dictInsert_self]; rfl)
    · exact ih _ h'

theorem innerTempMap_get (cs : IRCodeSet) (temps : List Nat) (mcmd : IRCommand)
    (t : Nat) (ht : t ∈ temps) :
    dictGet (toString t) (innerTempMap cs temps mcmd) =
      some (tempPayload cs mcmd (toString t)) := by
  have hpres : (dictGet (toString t) (innerTempMap cs temps mcmd)).isSome = true :=
    foldl_dictInsert_present (tempPayload cs mcmd) (fun u => toString u)
      temps [] t ht
  obtain ⟨v, hv⟩ := Option.isSome_iff_exists.mp hpres
  have hmem := dictGet_eq_some_mem hv
  have hval : ((toString t : String), v).2 = tempPayload cs mcmd (toString t) :=
    foldl_dictInsert_value_inv (tempPayload cs mcmd) (fun u => toString u)
      temps [] (by intro q hq; cases hq) _ hmem
  rw [hv]
  exact congrArg some hval

theorem tempModes_foldl_mem (cs : IRCodeSet) (temps : List Nat)
    (l : List (String × String))
    (acc : List (String × List (String × String)))
    (q : String × List (String × String))
    (h : q ∈ l.foldl (tempModesStep cs temps) acc) :
    q ∈ acc ∨ ∃ im mcmd, (im, q.1) ∈ l ∧ cs.get_command "mode" im = some mcmd ∧
      mcmd.validated = true ∧ q.2 = innerTempMap cs temps mcmd := by
  induction l generalizing acc with
  | nil => exact Or.inl h
  | cons hd tl ih =>
    rcases ih (tempModesStep cs temps acc hd) h with h' | ⟨im, mcmd, h1, h2, h3, h4⟩
    · unfold tempModesStep at h'
      cases hc : cs.get_command "mode" hd.1 with
      | none =>
        rw [hc] at h'
        exact Or.inl h'
      | some c =>
        rw [hc] at h'
        dsimp only at h'
        by_cases hv : c.validated = true
        · rw [if_pos hv] at h'
          rcases mem_dictInsert h' with h'' | h''
          · subst h''
            exact Or.inr ⟨hd.1, c,
              (by rw [Prod.mk.eta]; exact List.mem_cons_self hd tl), hc, hv, rfl⟩
          · exact Or.inl h''
        · rw [if_neg hv] at h'
          exact Or.inl h'
    · exact Or.inr ⟨im, mcmd, List.mem_cons_of_mem _ h1, h2, h3, h4⟩

/-- C6: whenever the matrix comprehension does not raise (so the matrix
is produced at all), every included mode entry comes from a validated
mode command, and for every available temperature the emitted payload is
`tempPayload`: the temperature-specific command's code when that command
exists and is validated, else the fallback to the mode command's code —
a populated entry either way, a degradation rather than a generation
error. -/
theorem c6_temperature_matrix_fallback (cs : IRCodeSet) (m : String) (t : Nat)
    (temps : List Nat) (matrix : List (String × List (String × String)))
    (htemps : available_temps cs = some temps)
    (hbuild : build_temperature_commands cs = some matrix)
    (hm : (dictGet m matrix).isSome = true)
    (ht : t ∈ temps) :
    ∃ im mcmd, (im, m) ∈ hvac_mode_mapping ∧
      cs.get_command "mode" im = some mcmd ∧ mcmd.validated = true ∧
      (dictGet m matrix).bind (dictGet (toString t)) =
        some (tempPayload cs mcmd (toString t)) := by
  obtain ⟨inner, hin⟩ := Option.isSome_iff_exists.mp hm
  have hmem := dictGet_eq_some_mem hin
  unfold build_temperature_commands at hbuild
  rw [htemps] at hbuild
  dsimp only at hbuild
  by_cases he : temps = []
  · exact absurd (he ▸ ht) (List.not_mem_nil t)
  · rw [if_neg he] at hbuild
    have hmx : matrix = hvac_mode_mapping.foldl (tempModesStep cs temps) [] :=
      (Option.some.inj hbuild).symm
    subst hmx
    rcases tempModes_foldl_mem cs temps hvac_mode_mapping [] (m, inner) hmem with h | h
    · cases h
    · obtain ⟨im, mcmd, h1, h2, h3, h4⟩ := h
      refine ⟨im, mcmd, h1, h2, h3, ?_⟩
      rw [hin, Option.some_bind]
      simp only at h4
      rw [h4]
      exact innerTempMap_get cs temps mcmd t ht

/-- Witness for C6 on a code set with a validated `cool` mode, a validated
`20` temperature command and an unvalidated `21` temperature command: the
matrix entry for `(cool, 21)` falls back to the mode command's code. -/
theorem c6_temperature_matrix_witness :
    ∃ im mcmd, (im, "cool") ∈ hvac_mode_mapping ∧
      IRCodeSet.get_command
        { mkIRCodeSet "t0" "dev" "Dev" with
            mode := [("cool", mkIRCommand "t0" "Mode cool" "REVG" none none false)],
            temperature := [("20", mkIRCommand "t0" "20c" "QUJD" none none false),
              ("21", mkIRCommand "t0" "21c" "!!!" none none false)] }
        "mode" im = some mcmd ∧ mcmd.validated = true ∧
      (dictGet "cool" ((build_temperature_commands
        { mkIRCodeSet "t0" "dev" "Dev" with
            mode := [("cool", mkIRCommand "t0" "Mode cool" "REVG" none none false)],
            temperature := [("20", mkIRCommand "t0" "20c" "QUJD" none none false),
              ("21", mkIRCommand "t0" "21c" "!!!" none none false)] }).getD [])).bind
          (dictGet (toString 21)) =
        some (tempPayload
          { mkIRCodeSet "t0" "dev" "Dev" with
              mode := [("cool", mkIRCommand "t0" "Mode cool" "REVG" none none false)],
              temperature := [("20", mkIRCommand "t0" "20c" "QUJD" none none false),
                ("21", mkIRCommand "t0" "21c" "!!!" none none false)] }
          mcmd (toString 21)) :=
  c6_temperature_matrix_fallback
    { mkIRCodeSet "t0" "dev" "Dev" with
        mode := [("cool", mkIRCommand "t0" "Mode cool" "REVG" none none false)],
        temperature := [("20", mkIRCommand "t0" "20c" "QUJD" none none false),
          ("21", mkIRCommand "t0" "21c" "!!!" none none false)] }
    "cool" 21 [20, 21]
    ((build_temperature_commands
      { mkIRCodeSet "t0" "dev" "Dev" with
          mode := [("cool", mkIRCommand "t0" "Mode cool" "REVG" none none false)],
          temperature := [("20", mkIRCommand "t0" "20c" "QUJD" none none false),
            ("21", mkIRCommand "t0" "21c" "!!!" none none false)] }).getD [])
    (by decide) (by decide) (by decide) (by decide)

end UfoR11
